import Mathlib

/-!
Verification development for the unsaved-changes navigation guard:
the `ConfirmProvider` / `useConfirm` confirmation coordinator
(src/utils/confirm/confirm.provider.tsx, confirm.hooks.ts, confirm.types.ts
with the `Confirm` dialog component) and the `usePrompt` hook
(the navigation guard with its blocker effect and before-unload effect).

The coordinator's React state is embedded as an explicit record
(`SysState`) threaded through the operations; invocations of user
callbacks and resolutions of the deferred boolean produced by
`usePrompt`'s `confirm()` are recorded in an event trace.  User callbacks
are identified by abstract numeric ids; deferred promises by the counter
`nextDeferred`, so that each `confirm()` call creates a fresh deferred id,
mirroring the fresh `resolve` closure each `new Promise` captures.
-/

set_option autoImplicit false

/-- Severity levels of a confirmation dialog
(`ConfirmOptions.type` in confirm.types.ts). -/
inductive Severity
  | success
  | error
  | warning
  | info
deriving DecidableEq, Repr

/-- An observable effect: resolution of a deferred boolean created by
`usePrompt.confirm`, or an invocation of a user-supplied callback. -/
inductive Event
  | resolve (d : Nat) (b : Bool)
  | callUser (id : Nat)
deriving DecidableEq, Repr

/-- A callback stored inside a `ConfirmOptions` record: either a plain
user callback, or one of the two wrappers `usePrompt.confirm` installs
(part_000 lines 31-38): resolve the deferred to `true`/`false`, then call
through to the optional user callback. -/
inductive Callback
  | user (id : Nat)
  | promptConfirm (d : Nat) (userCb : Option Nat)
  | promptCancel (d : Nat) (userCb : Option Nat)
deriving DecidableEq, Repr

/-- Events emitted when a callback is invoked.  The `usePrompt` wrappers
first resolve the deferred and then call the user callback, in that
order (part_000 lines 31-38). -/
def Callback.run : Callback → List Event
  | Callback.user id => [Event.callUser id]
  | Callback.promptConfirm d u => Event.resolve d true :: (u.map Event.callUser).toList
  | Callback.promptCancel d u => Event.resolve d false :: (u.map Event.callUser).toList

/-- `confirm?.onXxx?.()`: running an optional callback is a no-op when it
is absent. -/
def runOpt : Option Callback → List Event
  | none => []
  | some c => c.run

/-- A `ConfirmOptions` value (confirm.types.ts lines 1-9): every field is
optional. -/
structure Request where
  title : Option String
  subtitle : Option String
  confirmText : Option String
  cancelText : Option String
  onConfirm : Option Callback
  onCancel : Option Callback
  type : Option Severity
deriving DecidableEq, Repr

/-- Coordinator state plus the instrumentation needed to observe it:
`stored` is `ConfirmProvider`'s `confirm` state (a `Nullable<ConfirmOptions>`),
`openFlag` its `open` boolean, `events` the trace of emitted effects, and
`nextDeferred` the supply of fresh deferred ids. -/
structure SysState where
  stored : Option Request
  openFlag : Bool
  events : List Event
  nextDeferred : Nat
deriving DecidableEq, Repr

/-- The provider's initial state: no stored request, dialog closed. -/
def initState : SysState :=
  { stored := none, openFlag := false, events := [], nextDeferred := 0 }

/-- `ConfirmProvider.show` (confirm.provider.tsx lines 23-29): store the
(nullable) options and set visibility to true.  It is a total function:
a `null` argument is accepted without error. -/
def showOp (r : Option Request) (s : SysState) : SysState :=
  { s with stored := r, openFlag := true }

/-- `ConfirmProvider.onConfirm` (confirm.provider.tsx lines 31-34): run
`confirm?.onConfirm?.()`, then set visibility to false.  The stored
request is not cleared. -/
def resolveConfirm (s : SysState) : SysState :=
  { s with events := s.events ++ runOpt (s.stored.bind Request.onConfirm),
           openFlag := false }

/-- `ConfirmProvider.onCancel` (confirm.provider.tsx lines 36-39): run
`confirm?.onCancel?.()`, then set visibility to false.  The stored
request is not cleared. -/
def resolveCancel (s : SysState) : SysState :=
  { s with events := s.events ++ runOpt (s.stored.bind Request.onCancel),
           openFlag := false }

/-- The argument record of `usePrompt` before destructuring defaults are
applied: every field may be absent (part_000 lines 7-16). -/
structure UsePromptInput where
  isDirty : Option Bool
  title : Option String
  subtitle : Option String
  confirmText : Option String
  cancelText : Option String
  onConfirm : Option Nat
  onCancel : Option Nat
  type : Option Severity
deriving DecidableEq, Repr

/-- The guard configuration after destructuring defaults. -/
structure GuardConfig where
  isDirty : Bool
  title : String
  subtitle : String
  confirmText : String
  cancelText : String
  onConfirm : Option Nat
  onCancel : Option Nat
  type : Severity
deriving DecidableEq, Repr

/-- Parameter defaulting in `usePrompt`'s destructuring (part_000 lines
7-16): `isDirty = false`, `title = 'You have unsaved changes!'`,
`subtitle = 'Are you sure you want to leave?'`, `confirmText = 'Leave'`,
`cancelText = 'Stay'`, `type = 'warning'`; the callbacks have no default. -/
def resolveInput (i : UsePromptInput) : GuardConfig :=
  { isDirty := i.isDirty.getD false,
    title := i.title.getD "You have unsaved changes!",
    subtitle := i.subtitle.getD "Are you sure you want to leave?",
    confirmText := i.confirmText.getD "Leave",
    cancelText := i.cancelText.getD "Stay",
    onConfirm := i.onConfirm,
    onCancel := i.onCancel,
    type := i.type.getD Severity.warning }

/-- The request `usePrompt.confirm` passes to `show` for deferred id `d`
(part_000 lines 25-39): display fields from the resolved configuration,
callbacks replaced by the resolving wrappers. -/
def mkRequest (c : GuardConfig) (d : Nat) : Request :=
  { title := some c.title,
    subtitle := some c.subtitle,
    confirmText := some c.confirmText,
    cancelText := some c.cancelText,
    onConfirm := some (Callback.promptConfirm d c.onConfirm),
    onCancel := some (Callback.promptCancel d c.onCancel),
    type := some c.type }

/-- The result of `usePrompt.confirm`: either the already-resolved
`Promise.resolve(true)`, or a fresh pending deferred identified by `d`. -/
inductive PromiseResult
  | resolvedTrue
  | pending (d : Nat)
deriving DecidableEq, Repr

/-- `usePrompt.confirm` (part_000 lines 21-40): when the guard is not
dirty, return `Promise.resolve(true)` without touching the coordinator;
otherwise create a fresh deferred and `show` the wrapped request. -/
def hookConfirm (i : UsePromptInput) (s : SysState) : SysState × PromiseResult :=
  let c := resolveInput i
  if c.isDirty then
    (showOp (some (mkRequest c s.nextDeferred)) { s with nextDeferred := s.nextDeferred + 1 },
      PromiseResult.pending s.nextDeferred)
  else
    (s, PromiseResult.resolvedTrue)

/-- The operations that drive the coordinator in this repository:
a raw `show` (the coordinator's public capability, which accepts `null`),
the dialog's two resolution paths, and a `usePrompt.confirm` call. -/
inductive SysOp
  | doShow (r : Option Request)
  | doResolveConfirm
  | doResolveCancel
  | doHookConfirm (i : UsePromptInput)
deriving DecidableEq, Repr

/-- One step of the system. -/
def stepOp (s : SysState) : SysOp → SysState
  | SysOp.doShow r => showOp r s
  | SysOp.doResolveConfirm => resolveConfirm s
  | SysOp.doResolveCancel => resolveCancel s
  | SysOp.doHookConfirm i => (hookConfirm i s).1

/-- Run a sequence of operations. -/
def runOps (s : SysState) : List SysOp → SysState
  | [] => s
  | op :: l => runOps (stepOp s op) l

/-- The deferred ids a callback can resolve. -/
def Callback.deferredIds : Callback → List Nat
  | Callback.user _ => []
  | Callback.promptConfirm d _ => [d]
  | Callback.promptCancel d _ => [d]

/-- The deferred ids occurring in a request's callbacks. -/
def Request.deferredIds (r : Request) : List Nat :=
  (match r.onConfirm with | none => [] | some c => c.deferredIds) ++
  (match r.onCancel with | none => [] | some c => c.deferredIds)

/-- The deferred ids occurring in an optional request. -/
def optDeferredIds : Option Request → List Nat
  | none => []
  | some r => r.deferredIds

/-- An operation avoids deferred id `d` when, if it is a raw `show`, the
shown request does not capture `d`'s resolve function.  (Within the
repository every `show` comes from `usePrompt.confirm` and captures only
a freshly created deferred.) -/
def avoidsDeferred (d : Nat) : SysOp → Prop
  | SysOp.doShow r => d ∉ optDeferredIds r
  | _ => True

/-- Deferred id `d` is out of reach in state `s`: not captured by the
stored request, below the fresh-id counter, and not yet resolved in the
trace. -/
def deferredFree (d : Nat) (s : SysState) : Prop :=
  d ∉ optDeferredIds s.stored ∧ d < s.nextDeferred ∧
    Event.resolve d true ∉ s.events ∧ Event.resolve d false ∉ s.events

/-- The actions a guard can take on a blocked transition. -/
inductive NavAction
  | proceed
  | reset
deriving DecidableEq, Repr

/-- The decision in `usePrompt`'s blocker effect (part_000 lines 55-58):
`proceed` when `confirm()`'s promise resolved `true`, `reset` when it
resolved `false`. -/
def guardNavDecision (result : Bool) : NavAction :=
  if result then NavAction.proceed else NavAction.reset

/-- The state `unstable_useBlocker` reports to the guard. -/
inductive BlockerState
  | unblocked
  | blocked
deriving DecidableEq, Repr

/-- The blocker effect's guard (part_000 lines 53-60): `confirm()` is
invoked exactly when the routing layer reports a blocked transition. -/
def blockerEffect (bs : BlockerState) (i : UsePromptInput) (s : SysState) :
    SysState × Option PromiseResult :=
  match bs with
  | BlockerState.blocked => ((hookConfirm i s).1, some (hookConfirm i s).2)
  | BlockerState.unblocked => (s, none)

/-- Modelled from the spec: the external routing-layer collaborator, a
current location and an optional in-flight blocked transition whose
target is `pending`; `proceed()` completes the transition, `reset()`
aborts it and remains on the current location. -/
structure Router where
  location : String
  pending : Option String
deriving DecidableEq, Repr

/-- Modelled from the spec: applying the guard's decision to the pending
navigation handle: `proceed` moves to the pending target, `reset` keeps
the location unchanged. -/
def routerApply : NavAction → Router → Router
  | NavAction.proceed, r =>
    match r.pending with
    | some t => { location := t, pending := none }
    | none => { r with pending := none }
  | NavAction.reset, r => { r with pending := none }

/-- The context value `ConfirmProvider` supplies to descendants
(confirm.provider.tsx line 41): the `show` capability. -/
structure ConfirmContextValue where
  showFn : Option Request → SysState → SysState

/-- The value the provider places in the context. -/
def providerValue : ConfirmContextValue :=
  { showFn := showOp }

/-- `useConfirm` (confirm.hooks.ts lines 5-13): reading the context
outside a `ConfirmProvider` yields `null` and throws a descriptive
error; inside, the context value is returned unchanged. -/
def useConfirm : Option ConfirmContextValue → Except String ConfirmContextValue
  | none => Except.error "useConfirm must be used within a ConfirmProvider"
  | some ctx => Except.ok ctx

/-- A registered before-unload handler: the guard instance that installed
it and the string it returns (the handler is literally `() => subtitle`,
part_000 line 64). -/
structure BUHandler where
  owner : Nat
  msg : String
deriving DecidableEq, Repr

/-- Browser-global state: the single mutable `window.onbeforeunload` slot
together with all other browser state, abstracted as `rest`. -/
structure BrowserState (α : Type) where
  onBeforeUnload : Option BUHandler
  rest : α
deriving DecidableEq, Repr

/-- The before-unload effect body of guard instance `owner` (part_000
lines 62-65): when `isDirty`, assign the handler slot by direct
assignment; otherwise leave it untouched. -/
def buSetup {α : Type} (owner : Nat) (isDirty : Bool) (subtitle : String)
    (s : BrowserState α) : BrowserState α :=
  if isDirty then { s with onBeforeUnload := some { owner := owner, msg := subtitle } }
  else s

/-- The before-unload effect cleanup (part_000 lines 67-69):
unconditionally set `window.onbeforeunload = null`. -/
def buCleanup {α : Type} (s : BrowserState α) : BrowserState α :=
  { s with onBeforeUnload := none }

/-- One re-run of the effect on a dependency change (`isDirty` or
`subtitle`): React runs the previous cleanup, then the new body. -/
def buRerun {α : Type} (owner : Nat) (isDirty : Bool) (subtitle : String)
    (s : BrowserState α) : BrowserState α :=
  buSetup owner isDirty subtitle (buCleanup s)

/-- A whole history of dependency changes of one guard instance. -/
def buRunList {α : Type} (owner : Nat) (s : BrowserState α) :
    List (Bool × String) → BrowserState α
  | [] => s
  | (d, sub) :: l => buRunList owner (buRerun owner d sub s) l

/-- The props the provider passes to the `Confirm` dialog after the JSX
spread `type="warning" {...confirm}` and `Confirm`'s own destructuring
default `type = 'warning'` (confirm.provider.tsx lines 45-51, Confirm
component lines 159-168): display fields from the stored request, all
absent when the stored request is null; effective severity defaults to
warning. -/
structure DialogProps where
  title : Option String
  subtitle : Option String
  confirmText : Option String
  cancelText : Option String
  severity : Severity
  visible : Bool
deriving DecidableEq, Repr

/-- The rendered dialog props as a function of coordinator state. -/
def renderDialog (s : SysState) : DialogProps :=
  match s.stored with
  | none =>
    { title := none, subtitle := none, confirmText := none, cancelText := none,
      severity := Severity.warning, visible := s.openFlag }
  | some r =>
    { title := r.title, subtitle := r.subtitle, confirmText := r.confirmText,
      cancelText := r.cancelText, severity := r.type.getD Severity.warning,
      visible := s.openFlag }

/-- The dialog's interactive controls. -/
inductive DialogControl
  | confirmButton
  | cancelButton
  | dismissControl
deriving DecidableEq, Repr

/-- The wiring inside the `Confirm` component (Confirm component lines
192, 205, 215): the confirm button fires the confirm path, the cancel
button fires the cancel path, and the explicit close icon also fires the
cancel path. -/
def dialogHandler : DialogControl → SysState → SysState
  | DialogControl.confirmButton => resolveConfirm
  | DialogControl.cancelButton => resolveCancel
  | DialogControl.dismissControl => resolveCancel

/-- `usePrompt({ isDirty })` with only the dirty flag supplied: every
display field takes its default (part_001 lines 60-62). -/
def dirtyDefaults : UsePromptInput :=
  { isDirty := some true, title := none, subtitle := none, confirmText := none,
    cancelText := none, onConfirm := none, onCancel := none, type := none }

/-- A dirty configuration that also supplies both user callbacks. -/
def dirtyWithCallbacks : UsePromptInput :=
  { isDirty := some true, title := none, subtitle := none, confirmText := none,
    cancelText := none, onConfirm := some 1, onCancel := some 2, type := none }

/-- A configuration that leaves the dirty flag at its default. -/
def cleanDefaults : UsePromptInput :=
  { isDirty := none, title := none, subtitle := none, confirmText := none,
    cancelText := none, onConfirm := some 1, onCancel := some 2, type := none }

/-- A dirty configuration whose caller explicitly supplies the empty
string as subtitle. -/
def emptySubtitleInput : UsePromptInput :=
  { isDirty := some true, title := none, subtitle := some "", confirmText := none,
    cancelText := none, onConfirm := none, onCancel := none, type := none }

/-- A request with every field absent. -/
def blankRequest : Request :=
  { title := none, subtitle := none, confirmText := none, cancelText := none,
    onConfirm := none, onCancel := none, type := none }

/-- An operation whose raw `show` (if any) passes a non-null request. -/
def showsNonNull : SysOp → Prop
  | SysOp.doShow r => r.isSome = true
  | _ => True

/-- A browser state with an empty handler slot. -/
def browser0 : BrowserState Nat :=
  { onBeforeUnload := none, rest := 0 }

theorem resolve_mem_run {d : Nat} {b : Bool} {c : Callback}
    (h : Event.resolve d b ∈ c.run) : d ∈ c.deferredIds := by
  cases c with
  | user id => simp [Callback.run] at h
  | promptConfirm e u =>
    cases u <;> simp_all [Callback.run, Callback.deferredIds]
  | promptCancel e u =>
    cases u <;> simp_all [Callback.run, Callback.deferredIds]

theorem resolve_mem_runOpt_onConfirm {d : Nat} {b : Bool} {o : Option Request}
    (h : Event.resolve d b ∈ runOpt (o.bind Request.onConfirm)) :
    d ∈ optDeferredIds o := by
  cases o with
  | none => simp [runOpt] at h
  | some r =>
    rcases hc : r.onConfirm with _ | c
    · rw [Option.bind, hc] at h; simp [runOpt] at h
    · rw [Option.bind, hc] at h
      rw [runOpt] at h
      have hd := resolve_mem_run h
      simp [optDeferredIds, Request.deferredIds, hc]
      exact Or.inl hd

theorem resolve_mem_runOpt_onCancel {d : Nat} {b : Bool} {o : Option Request}
    (h : Event.resolve d b ∈ runOpt (o.bind Request.onCancel)) :
    d ∈ optDeferredIds o := by
  cases o with
  | none => simp [runOpt] at h
  | some r =>
    rcases hc : r.onCancel with _ | c
    · rw [Option.bind, hc] at h; simp [runOpt] at h
    · rw [Option.bind, hc] at h
      rw [runOpt] at h
      have hd := resolve_mem_run h
      simp [optDeferredIds, Request.deferredIds, hc]
      exact Or.inr hd

theorem deferredFree_step {d : Nat} {s : SysState} {op : SysOp}
    (hf : deferredFree d s) (ha : avoidsDeferred d op) :
    deferredFree d (stepOp s op) := by
  obtain ⟨h1, h2, h3, h4⟩ := hf
  cases op with
  | doShow r => exact ⟨ha, h2, h3, h4⟩
  | doResolveConfirm =>
    refine ⟨h1, h2, ?_, ?_⟩ <;>
    · intro hmem
      rcases List.mem_append.1 hmem with hm | hm
      · first
        | exact h3 hm
        | exact h4 hm
      · exact h1 (resolve_mem_runOpt_onConfirm hm)
  | doResolveCancel =>
    refine ⟨h1, h2, ?_, ?_⟩ <;>
    · intro hmem
      rcases List.mem_append.1 hmem with hm | hm
      · first
        | exact h3 hm
        | exact h4 hm
      · exact h1 (resolve_mem_runOpt_onCancel hm)
  | doHookConfirm i =>
    by_cases hd : (resolveInput i).isDirty = true
    · refine ⟨?_, ?_, ?_, ?_⟩ <;>
        simp [stepOp, hookConfirm, hd, showOp, optDeferredIds, Request.deferredIds,
          mkRequest, Callback.deferredIds]
      · omega
      · omega
      · exact h3
      · exact h4
    · simpa [stepOp, hookConfirm, hd] using ⟨h1, h2, h3, h4⟩

theorem deferredFree_runOps {d : Nat} {s : SysState} {l : List SysOp}
    (hf : deferredFree d s) (hl : ∀ op ∈ l, avoidsDeferred d op) :
    deferredFree d (runOps s l) := by
  induction l generalizing s with
  | nil => exact hf
  | cons op l ih =>
    exact ih (deferredFree_step hf (hl op (List.mem_cons_self op l)))
      (fun o ho => hl o (List.mem_cons_of_mem _ ho))

theorem visible_imp_stored_step {s : SysState} {op : SysOp}
    (h : s.openFlag = true → s.stored.isSome = true) (hop : showsNonNull op) :
    (stepOp s op).openFlag = true → (stepOp s op).stored.isSome = true := by
  cases op with
  | doShow r => intro _; simpa [stepOp, showOp] using hop
  | doResolveConfirm => intro hc; simp [stepOp, resolveConfirm] at hc
  | doResolveCancel => intro hc; simp [stepOp, resolveCancel] at hc
  | doHookConfirm i =>
    by_cases hd : (resolveInput i).isDirty = true
    · intro _; simp [stepOp, hookConfirm, hd, showOp]
    · intro hc
      rw [stepOp] at hc ⊢
      simp [hookConfirm, hd] at hc ⊢
      exact h hc

theorem visible_imp_stored_runOps {s : SysState} {l : List SysOp}
    (h : s.openFlag = true → s.stored.isSome = true)
    (hl : ∀ op ∈ l, showsNonNull op) :
    (runOps s l).openFlag = true → (runOps s l).stored.isSome = true := by
  induction l generalizing s with
  | nil => exact h
  | cons op l ih =>
    exact ih (visible_imp_stored_step h (hl op (List.mem_cons_self op l)))
      (fun o ho => hl o (List.mem_cons_of_mem _ ho))

/-- C1, counterexample: the claimed invariant "dialog visibility is true
iff exactly one ConfirmRequest is stored as pending" fails on reachable
states.  `show(null)` yields a visible dialog with no stored request, and
resolving a shown request hides the dialog while leaving the request
stored, so neither direction of the biconditional holds. -/
theorem visibility_invariant_cex :
    ((runOps initState [SysOp.doShow none]).openFlag = true ∧
      (runOps initState [SysOp.doShow none]).stored = none) ∧
    ((runOps initState [SysOp.doShow (some blankRequest), SysOp.doResolveConfirm]).openFlag
        = false ∧
      (runOps initState [SysOp.doShow (some blankRequest), SysOp.doResolveConfirm]).stored
        = some blankRequest) ∧
    ¬ (∀ l : List SysOp,
        ((runOps initState l).openFlag = true ↔ (runOps initState l).stored.isSome = true)) := by
  refine ⟨⟨rfl, rfl⟩, ⟨rfl, rfl⟩, ?_⟩
  intro h
  have hc := (h [SysOp.doShow none]).mp rfl
  simp [runOps, stepOp, showOp, initState] at hc

/-- C1, amended: restricted to operation sequences in which every raw
show passes a non-null request, visibility true implies that exactly one
request is stored; the converse fails because resolution clears
visibility without clearing the stored request, and `show(null)` opens
the dialog with nothing stored. -/
theorem visible_implies_stored (l : List SysOp)
    (hl : ∀ op ∈ l, showsNonNull op) :
    (runOps initState l).openFlag = true → (runOps initState l).stored.isSome = true :=
  visible_imp_stored_runOps (by intro h; simp [initState] at h) hl

/-- Witness for the amended C1 at a concrete non-null show sequence. -/
theorem visible_implies_stored_witness :
    (runOps initState [SysOp.doShow (some blankRequest)]).stored.isSome = true :=
  visible_implies_stored [SysOp.doShow (some blankRequest)]
    (by simp [showsNonNull]) rfl

/-- C2: for every configuration with the dirty flag set, `confirm()`
returns a fresh pending deferred; if the user confirms, the resolution
path appends exactly one resolution of that deferred to `true` followed
by exactly one invocation of the configured confirm callback (when
present) and nothing else — in particular the cancel callback never runs;
symmetrically, cancellation appends a resolution to `false` and exactly
one invocation of the configured cancel callback, and the confirm
callback never runs.  Both paths close the dialog. -/
theorem dirty_confirm_resolution (i : UsePromptInput) (s : SysState)
    (h : (resolveInput i).isDirty = true) :
    (hookConfirm i s).2 = PromiseResult.pending s.nextDeferred ∧
    (resolveConfirm (hookConfirm i s).1).events =
      s.events ++ Event.resolve s.nextDeferred true :: (i.onConfirm.map Event.callUser).toList ∧
    (resolveCancel (hookConfirm i s).1).events =
      s.events ++ Event.resolve s.nextDeferred false :: (i.onCancel.map Event.callUser).toList ∧
    (resolveConfirm (hookConfirm i s).1).openFlag = false ∧
    (resolveCancel (hookConfirm i s).1).openFlag = false := by
  have h' : i.isDirty.getD false = true := by simpa [resolveInput] using h
  refine ⟨?_, ?_, ?_, rfl, rfl⟩ <;>
    simp [hookConfirm, h', showOp, resolveConfirm, resolveCancel, mkRequest, runOpt,
      Callback.run, resolveInput]

/-- Witness for C2 with both user callbacks configured. -/
theorem dirty_confirm_resolution_witness :
    (hookConfirm dirtyWithCallbacks initState).2 = PromiseResult.pending 0 ∧
    (resolveConfirm (hookConfirm dirtyWithCallbacks initState).1).events =
      [Event.resolve 0 true, Event.callUser 1] ∧
    (resolveCancel (hookConfirm dirtyWithCallbacks initState).1).events =
      [Event.resolve 0 false, Event.callUser 2] := by
  have h := dirty_confirm_resolution dirtyWithCallbacks initState rfl
  refine ⟨h.1, ?_, ?_⟩
  · have h2 := h.2.1
    simpa [initState, dirtyWithCallbacks] using h2
  · have h3 := h.2.2.1
    simpa [initState, dirtyWithCallbacks] using h3

/-- C3: for every configuration with the dirty flag clear, `confirm()`
returns the already-resolved `true` promise and the coordinator state is
untouched: no `show`, visibility unchanged, no event emitted, so neither
callback is ever invoked. -/
theorem clean_confirm_immediate (i : UsePromptInput) (s : SysState)
    (h : (resolveInput i).isDirty = false) :
    hookConfirm i s = (s, PromiseResult.resolvedTrue) := by
  simp [hookConfirm, h]

/-- Witness for C3 at the all-default configuration. -/
theorem clean_confirm_immediate_witness :
    hookConfirm cleanDefaults initState = (initState, PromiseResult.resolvedTrue) :=
  clean_confirm_immediate cleanDefaults initState rfl

/-- C4: when the routing layer reports a blocked transition, the guard's
effect invokes `confirm()`; under the default configuration this shows a
dialog titled "You have unsaved changes!" with action labels "Leave" and
"Stay"; resolving the deferred to `true` makes the guard proceed with the
navigation, resolving it to `false` makes the guard reset it, leaving the
location unchanged.  (The routing layer's proceed/reset handles are
modelled from the spec's external-interface contract.) -/
theorem blocked_transition_flow (s : SysState) (rt : Router) :
    (blockerEffect BlockerState.blocked dirtyDefaults s).2 =
      some (PromiseResult.pending s.nextDeferred) ∧
    (blockerEffect BlockerState.blocked dirtyDefaults s).1.stored =
      some (mkRequest (resolveInput dirtyDefaults) s.nextDeferred) ∧
    (mkRequest (resolveInput dirtyDefaults) s.nextDeferred).title =
      some "You have unsaved changes!" ∧
    (mkRequest (resolveInput dirtyDefaults) s.nextDeferred).confirmText = some "Leave" ∧
    (mkRequest (resolveInput dirtyDefaults) s.nextDeferred).cancelText = some "Stay" ∧
    Event.resolve s.nextDeferred true ∈
      (resolveConfirm (blockerEffect BlockerState.blocked dirtyDefaults s).1).events ∧
    guardNavDecision true = NavAction.proceed ∧
    Event.resolve s.nextDeferred false ∈
      (resolveCancel (blockerEffect BlockerState.blocked dirtyDefaults s).1).events ∧
    guardNavDecision false = NavAction.reset ∧
    routerApply (guardNavDecision false) rt = { location := rt.location, pending := none } := by
  refine ⟨rfl, rfl, rfl, rfl, rfl, ?_, rfl, ?_, rfl, rfl⟩ <;>
    simp [blockerEffect, hookConfirm, dirtyDefaults, resolveInput, showOp, mkRequest,
      resolveConfirm, resolveCancel, runOpt, Callback.run]

/-- C5: if a second `confirm()` is issued while a first one is still
pending, the second request overwrites the first (last caller wins), and
along every continuation of the run built from the repository's
operations (raw shows being required only not to capture the first
deferred, which no show in the repository can, as each captures a fresh
one) the first deferred is never resolved — equivalently the first
request's wrapper callbacks, which would resolve it first, never fire,
so the first caller's user callbacks never fire through it either. -/
theorem overwrite_first_never_resolves (s0 : SysState) (i1 i2 : UsePromptInput)
    (l : List SysOp)
    (h1 : (resolveInput i1).isDirty = true) (h2 : (resolveInput i2).isDirty = true)
    (he1 : Event.resolve s0.nextDeferred true ∉ s0.events)
    (he2 : Event.resolve s0.nextDeferred false ∉ s0.events)
    (hl : ∀ op ∈ l, avoidsDeferred s0.nextDeferred op) :
    (hookConfirm i1 s0).2 = PromiseResult.pending s0.nextDeferred ∧
    (hookConfirm i2 (hookConfirm i1 s0).1).1.stored =
      some (mkRequest (resolveInput i2) (s0.nextDeferred + 1)) ∧
    Event.resolve s0.nextDeferred true ∉
      (runOps (hookConfirm i2 (hookConfirm i1 s0).1).1 l).events ∧
    Event.resolve s0.nextDeferred false ∉
      (runOps (hookConfirm i2 (hookConfirm i1 s0).1).1 l).events := by
  have h1' : i1.isDirty.getD false = true := by simpa [resolveInput] using h1
  have h2' : i2.isDirty.getD false = true := by simpa [resolveInput] using h2
  have hs2 : (hookConfirm i2 (hookConfirm i1 s0).1).1 =
      { stored := some (mkRequest (resolveInput i2) (s0.nextDeferred + 1)),
        openFlag := true, events := s0.events, nextDeferred := s0.nextDeferred + 2 } := by
    simp [hookConfirm, h1', h2', showOp, resolveInput, mkRequest]
  have hfree : deferredFree s0.nextDeferred (hookConfirm i2 (hookConfirm i1 s0).1).1 := by
    rw [hs2]
    refine ⟨?_, ?_, he1, he2⟩
    · simp [optDeferredIds, Request.deferredIds, mkRequest, Callback.deferredIds]
    · show s0.nextDeferred < s0.nextDeferred + 2
      omega
  have hrun := deferredFree_runOps hfree hl
  refine ⟨by simp [hookConfirm, h1], by rw [hs2], hrun.2.2.1, hrun.2.2.2⟩

/-- Witness for C5: two consecutive dirty `confirm()` calls followed by a
confirm resolution and a cancel resolution; the first deferred (id 0)
never resolves. -/
theorem overwrite_first_never_resolves_witness :
    Event.resolve 0 true ∉
      (runOps (hookConfirm dirtyWithCallbacks (hookConfirm dirtyDefaults initState).1).1
        [SysOp.doResolveConfirm, SysOp.doResolveCancel]).events ∧
    Event.resolve 0 false ∉
      (runOps (hookConfirm dirtyWithCallbacks (hookConfirm dirtyDefaults initState).1).1
        [SysOp.doResolveConfirm, SysOp.doResolveCancel]).events := by
  have h := overwrite_first_never_resolves initState dirtyDefaults dirtyWithCallbacks
    [SysOp.doResolveConfirm, SysOp.doResolveCancel] rfl rfl
    (by simp [initState]) (by simp [initState])
    (by simp [avoidsDeferred])
  exact ⟨h.2.2.1, h.2.2.2⟩

/-- C6: using the confirmation capability with no provider above throws
the descriptive wiring error at first use (the model returns an explicit
error value, never a silent no-op), and with a provider in scope it never
throws: the context value is returned unchanged. -/
theorem useConfirm_fail_fast :
    useConfirm none = Except.error "useConfirm must be used within a ConfirmProvider" ∧
    ∀ ctx : ConfirmContextValue, useConfirm (some ctx) = Except.ok ctx :=
  ⟨rfl, fun _ => rfl⟩

/-- C7, counterexample: the claim asserts the installed before-unload
handler returns the configured subtitle as a non-empty string for every
configuration, but a caller may configure the empty string as subtitle
(the destructuring default only applies to an absent field): then the
effect installs a handler returning the empty string. -/
theorem beforeunload_nonempty_cex :
    (resolveInput emptySubtitleInput).isDirty = true ∧
    (resolveInput emptySubtitleInput).subtitle = "" ∧
    (buRerun 0 (resolveInput emptySubtitleInput).isDirty
        (resolveInput emptySubtitleInput).subtitle browser0).onBeforeUnload =
      some { owner := 0, msg := "" } ∧
    ¬ (∀ hdl : BUHandler,
        (buRerun 0 (resolveInput emptySubtitleInput).isDirty
            (resolveInput emptySubtitleInput).subtitle browser0).onBeforeUnload = some hdl →
          hdl.msg ≠ "") := by
  refine ⟨rfl, rfl, rfl, ?_⟩
  intro h
  exact h { owner := 0, msg := "" } rfl rfl

/-- C7, amended: while `isDirty` is true a handler returning exactly the
configured subtitle is installed in the global slot; the configured
subtitle is non-empty unless the caller explicitly supplied the empty
string (in particular the default subtitle is non-empty); whenever
`isDirty` becomes false, or on unmount after any history of dependency
changes, the slot is cleared and no handler remains. -/
theorem beforeunload_lifecycle {α : Type} (o : Nat) (s : BrowserState α)
    (i : UsePromptInput) (l : List (Bool × String)) (sub : String) :
    (buRerun o true sub s).onBeforeUnload = some { owner := o, msg := sub } ∧
    (i.subtitle = some "" ∨ (resolveInput i).subtitle ≠ "") ∧
    (buRerun o false sub s).onBeforeUnload = none ∧
    (buCleanup (buRunList o s l)).onBeforeUnload = none := by
  refine ⟨rfl, ?_, rfl, rfl⟩
  rcases hs : i.subtitle with _ | t
  · right
    simp [resolveInput, hs]
  · by_cases ht : t = ""
    · left
      rw [ht]
    · right
      simp [resolveInput, hs, ht]

/-- C8: with a request stored, the confirm resolution path appends
exactly the events of the stored confirm callback and closes the dialog,
the cancel path appends exactly the events of the stored cancel callback
and closes the dialog, an absent callback contributes no event (no-op),
and the dialog's controls are wired so that the close icon fires the
cancel path (dismiss has cancel semantics). -/
theorem resolution_paths (s : SysState) (r : Request) (h : s.stored = some r) :
    (resolveConfirm s).events = s.events ++ runOpt r.onConfirm ∧
    (resolveCancel s).events = s.events ++ runOpt r.onCancel ∧
    runOpt none = ([] : List Event) ∧
    (resolveConfirm s).openFlag = false ∧
    (resolveCancel s).openFlag = false ∧
    dialogHandler DialogControl.dismissControl s = resolveCancel s ∧
    dialogHandler DialogControl.confirmButton s = resolveConfirm s ∧
    dialogHandler DialogControl.cancelButton s = resolveCancel s := by
  refine ⟨?_, ?_, rfl, rfl, rfl, rfl, rfl, rfl⟩ <;>
    simp [resolveConfirm, resolveCancel, h]

/-- Witness for C8 at a concretely stored blank request. -/
theorem resolution_paths_witness :
    (resolveConfirm (showOp (some blankRequest) initState)).events =
      initState.events ++ runOpt blankRequest.onConfirm ∧
    (resolveCancel (showOp (some blankRequest) initState)).events =
      initState.events ++ runOpt blankRequest.onCancel ∧
    runOpt none = ([] : List Event) ∧
    (resolveConfirm (showOp (some blankRequest) initState)).openFlag = false ∧
    (resolveCancel (showOp (some blankRequest) initState)).openFlag = false ∧
    dialogHandler DialogControl.dismissControl (showOp (some blankRequest) initState) =
      resolveCancel (showOp (some blankRequest) initState) ∧
    dialogHandler DialogControl.confirmButton (showOp (some blankRequest) initState) =
      resolveConfirm (showOp (some blankRequest) initState) ∧
    dialogHandler DialogControl.cancelButton (showOp (some blankRequest) initState) =
      resolveCancel (showOp (some blankRequest) initState) :=
  resolution_paths (showOp (some blankRequest) initState) blankRequest rfl

/-- C9: `show(null)` is accepted without error (the operation is total)
and still opens the dialog: visibility becomes true with no stored
request, and the rendered dialog has no title, subtitle, or button text
and warning severity. -/
theorem show_null_opens_blank_dialog (s : SysState) :
    (showOp none s).openFlag = true ∧
    (showOp none s).stored = none ∧
    renderDialog (showOp none s) =
      { title := none, subtitle := none, confirmText := none, cancelText := none,
        severity := Severity.warning, visible := true } :=
  ⟨rfl, rfl, rfl⟩

/-- C10: the before-unload registration is one global mutable slot
written by direct assignment: a second dirty instance's setup replaces
the first instance's handler; cleanup unconditionally nulls the slot
regardless of its contents — including a handler owned by a still-dirty
other instance; and neither setup nor cleanup modifies any browser state
other than the slot. -/
theorem beforeunload_global_slot {α : Type} (s : BrowserState α)
    (a b : Nat) (sa sb : String) :
    (buSetup b true sb (buSetup a true sa s)).onBeforeUnload =
      some { owner := b, msg := sb } ∧
    (buCleanup s).onBeforeUnload = none ∧
    (buCleanup (buSetup a true sa s)).onBeforeUnload = none ∧
    (buSetup a true sa s).rest = s.rest ∧
    (buSetup a false sa s).rest = s.rest ∧
    (buCleanup s).rest = s.rest :=
  ⟨rfl, rfl, rfl, rfl, rfl, rfl⟩

/-- Witness for C4 at a concrete router with a pending navigation. -/
theorem blocked_transition_flow_witness :
    (mkRequest (resolveInput dirtyDefaults) initState.nextDeferred).title =
      some "You have unsaved changes!" ∧
    routerApply (guardNavDecision false) { location := "/contact", pending := some "/home" } =
      { location := "/contact", pending := none } := by
  have h := blocked_transition_flow initState { location := "/contact", pending := some "/home" }
  exact ⟨h.2.2.1, h.2.2.2.2.2.2.2.2.2⟩

/-- Witness for C6 at the provider's actual context value. -/
theorem useConfirm_fail_fast_witness :
    useConfirm (some providerValue) = Except.ok providerValue :=
  useConfirm_fail_fast.2 providerValue

/-- Witness for the amended C7 at a concrete instance history. -/
theorem beforeunload_lifecycle_witness :
    (buRerun 3 true "dirty note" browser0).onBeforeUnload =
      some { owner := 3, msg := "dirty note" } ∧
    (buCleanup (buRunList 3 browser0 [(true, "x"), (false, "y")])).onBeforeUnload = none :=
  ⟨(beforeunload_lifecycle 3 browser0 dirtyDefaults [(true, "x"), (false, "y")] "dirty note").1,
   (beforeunload_lifecycle 3 browser0 dirtyDefaults [(true, "x"), (false, "y")] "dirty note").2.2.2⟩

/-- Witness for C9 at the initial state. -/
theorem show_null_opens_blank_dialog_witness :
    renderDialog (showOp none initState) =
      { title := none, subtitle := none, confirmText := none, cancelText := none,
        severity := Severity.warning, visible := true } :=
  (show_null_opens_blank_dialog initState).2.2

/-- Witness for C10 with two concrete instances. -/
theorem beforeunload_global_slot_witness :
    (buSetup 2 true "B" (buSetup 1 true "A" browser0)).onBeforeUnload =
      some { owner := 2, msg := "B" } ∧
    (buCleanup (buSetup 1 true "A" browser0)).onBeforeUnload = none :=
  ⟨(beforeunload_global_slot browser0 1 2 "A" "B").1,
   (beforeunload_global_slot browser0 1 2 "A" "B").2.2.1⟩
